import Mathlib

/-!
Verification of the association engine of pynetdicom (`pynetdicom/association.py`).

Shallow embedding: the `Association` class's construction checks, acceptor
admission policy and negotiation phase, acceptor steady-state message routing,
the SCU request helpers (`send_c_echo`, `send_c_store`, `send_c_find`,
`send_c_move`, `send_c_get`) and the shutdown methods (`kill`, `release`,
`abort`, deprecated `Abort`) are rendered as pure Lean functions.  External
collaborators (DUL, ACSE, DIMSE providers, the presentation-context
negotiator, dataset encoding, SOP-class handlers) are either parameters of
these functions or small definitions modelled from the specification, each
marked as such in its doc comment.  Python exceptions become `Except` values,
wire primitives and callbacks become explicit event traces.
-/

namespace Pynetdicom

/-- Python exception kinds raised by the code under study. -/
inductive PyError
  | valueError (msg : String)
  | runtimeError (msg : String)
  | attributeError (msg : String)
  | typeError (msg : String)
  | indexError
deriving DecidableEq

/-- A transfer syntax UID as used by `association.py`: a pydicom UID value
together with the two properties the encoder is driven by
(`is_implicit_VR`, `is_little_endian`). -/
structure TransferSyntaxUID where
  uid : String
  is_implicit_VR : Bool
  is_little_endian : Bool
deriving DecidableEq

/-- Models `pynetdicom.utils.PresentationContext` as read by `association.py`:
`ID`, `AbstractSyntax` (rendered `AbstractSyntaxUID`) and the list
`TransferSyntax` (rendered `TransferSyntaxes`; on an accepted context its
first element is the selected transfer syntax). -/
structure PresentationContext where
  ID : Nat
  AbstractSyntaxUID : String
  TransferSyntaxes : List TransferSyntaxUID
deriving DecidableEq

/-- A TCP socket handle (opaque to the association engine). -/
structure Socket where
  fd : Nat
deriving DecidableEq

/-- The peer-AE dict `{AET, Address, Port}` given to a requestor association.
When supplied it is a non-empty dict, hence truthy in Python. -/
structure PeerAE where
  AET : String
  Address : String
  Port : Nat
deriving DecidableEq

/-- The `self.mode` tag set by `Association.__init__`. -/
inductive Mode
  | Acceptor
  | Requestor
deriving DecidableEq

/-- The attributes established by `Association.__init__` (lines 108-183).
`started` records that `threading.Thread.start()` was reached (line 183). -/
structure AssocInit where
  mode : Mode
  client_socket : Option Socket
  peer_ae : Option PeerAE
  is_established : Bool
  is_refused : Bool
  is_aborted : Bool
  dimse_timeout : Nat
  acse_timeout : Nat
  local_max_pdu : Nat
  killFlag : Bool
  started : Bool
deriving DecidableEq

/-- `Association.__init__` (lines 108-183).  The two argument checks on lines
121-127 raise `ValueError` before any other attribute is set and before the
thread is started; otherwise `mode` is set from whichever argument is truthy
(a supplied socket or peer dict is truthy) and the thread is started. -/
def Association.init (client_socket : Option Socket) (peer_ae : Option PeerAE)
    (acse_timeout : Nat) (dimse_timeout : Nat) (max_pdu : Nat) :
    Except PyError AssocInit :=
  if client_socket = none ∧ peer_ae = none then
    .error (.valueError "Association must be initialised with either the client_socket or peer_ae parameters")
  else if client_socket.isSome ∧ peer_ae.isSome then
    .error (.valueError "Association must be initialised with either client_socket or peer_ae parameter not both")
  else
    .ok { mode := if client_socket.isSome then Mode.Acceptor else Mode.Requestor
        , client_socket := client_socket
        , peer_ae := peer_ae
        , is_established := false
        , is_refused := false
        , is_aborted := false
        , dimse_timeout := dimse_timeout
        , acse_timeout := acse_timeout
        , local_max_pdu := max_pdu
        , killFlag := false
        , started := true }

/-- The fields of a received DIMSE message that the acceptor loop routes on. -/
structure DIMSEMessage where
  AffectedSOPClassUID : String
deriving DecidableEq

/-- The attributes injected onto the SOP-class instance by the acceptor run
loop before its `SCP` entry point is invoked (lines 337-344). -/
structure ScpBinding where
  pcid : Nat
  sopclassUID : String
  transferSyntaxSel : TransferSyntaxUID
  presentation_context : PresentationContext
deriving DecidableEq

/-- The for-loop over `acse.presentation_contexts_accepted` in the acceptor
run loop (lines 333-346): whenever `context.ID == msg_id` the binding is
(re)assigned and the `matching_context` flag is set; the loop has no break,
so a later match overwrites an earlier one.  `context.TransferSyntax[0]`
raises `IndexError` when the list is empty. -/
def scpMatchContext : List PresentationContext → Nat → Option ScpBinding →
    Except PyError (Option ScpBinding)
  | [], _, b => .ok b
  | c :: rest, mid, b =>
    if c.ID = mid then
      match c.TransferSyntaxes with
      | [] => .error .indexError
      | t :: _ => scpMatchContext rest mid (some ⟨c.ID, c.AbstractSyntaxUID, t, c⟩)
    else
      scpMatchContext rest mid b

/-- A log record emitted by the engine. -/
inductive LogEvent
  | warning (msg : String)
  | error (msg : String)
deriving DecidableEq

/-- A dispatch of a received message to `sop_class.SCP(msg)` (line 356). -/
structure ScpDispatch where
  binding : ScpBinding
  msg : DIMSEMessage
deriving DecidableEq

/-- One iteration's handling of the `dimse.Receive` output in the acceptor
steady-state loop (lines 320-356).  Modelled from the spec: the DIMSE
provider (`pynetdicom.DIMSEprovider`, not under `src/`) returns the pair
(message, presentation-context id) per spec 4.C, so the second component
compared against `context.ID` is the message's pc id.  Returns the dispatch
performed, if any, together with the log records emitted by this fragment;
the source contains no logging statement on the no-match path, so a
non-matching message is ignored without a log. -/
def scpHandleMessage (accepted : List PresentationContext)
    (received : Option (DIMSEMessage × Nat)) :
    Except PyError (Option ScpDispatch × List LogEvent) :=
  match received with
  | none => .ok (none, [])
  | some (msg, mid) =>
    match scpMatchContext accepted mid none with
    | .error e => .error e
    | .ok (some b) => .ok (some ⟨b, msg⟩, [])
    | .ok none => .ok (none, [])

/-- The fields of a received A-ASSOCIATE-RQ that the admission policy reads. -/
structure AssocRQ where
  CallingAETitle : String
  CalledAETitle : String
deriving DecidableEq

/-- The fields of the owning AE that the acceptor branch of `run` reads. -/
structure AEConfig where
  require_calling_aet : String
  require_called_aet : String
  active_associations : List Nat
  maximum_associations : Nat
deriving DecidableEq

/-- The attribute lookup `self.AE` on line 258: the `Association` class only
ever assigns `self.ae` (lower case), an attribute named `AE` never exists,
so the lookup raises `AttributeError`. -/
def Association.AE_attr : Except PyError AEConfig :=
  .error (.attributeError "Association object has no attribute AE")

/-- The admission policy of the acceptor branch (lines 249-265): builds
`reject_assoc_rsd`; each check that fires replaces the whole list with its
own singleton (assignment, not append).  The called-AET check evaluates
`self.AE.require_called_aet`, which raises `AttributeError` whenever
`require_called_aet` is configured non-empty. -/
def acceptorAdmission (ae : AEConfig) (rq : AssocRQ) :
    Except PyError (List (Nat × Nat × Nat)) :=
  let r0 : List (Nat × Nat × Nat) := []
  let r1 := if ae.require_calling_aet ≠ "" then
      (if ae.require_calling_aet ≠ rq.CallingAETitle then [(1, 1, 3)] else r0)
    else r0
  let step2 : Except PyError (List (Nat × Nat × Nat)) :=
    if ae.require_called_aet ≠ "" then
      match Association.AE_attr with
      | .error e => .error e
      | .ok upper =>
        .ok (if upper.require_called_aet ≠ rq.CalledAETitle then [(1, 1, 7)] else r1)
    else .ok r1
  match step2 with
  | .error e => .error e
  | .ok r2 =>
    .ok (if ae.active_associations.length > ae.maximum_associations then [(2, 3, 2)] else r2)

/-- The observable events of the acceptor negotiation phase, in order. -/
inductive AcceptorEvent
  | rejectSent (result source diagnostic : Nat)
  | callbackRejected
  | callbackAccepted
  | abortSent (source reason : Nat)
  | killed
deriving DecidableEq

/-- An A-ASSOCIATE-AC primitive, treated abstractly. -/
inductive ACPrimitive
  | mk
deriving DecidableEq

/-- The acceptor branch of `Association.run` from receiving the
A-ASSOCIATE-RQ up to (not including) the steady-state loop (lines 225-301).
`assoc_rq` is the value of `dul.Receive(Wait=True)`, `assoc_ac` the value
returned by `acse.Accept`, and `negotiated` the negotiator's accepted list
(`PresentationContextManager.accepted`; the negotiator lives in
`pynetdicom.utils`, outside `src/`, so its output is a parameter here).
Returns the events in order and the final `is_established` flag.  Note the
source invokes the accepted callback right after `acse.Accept`, before the
`assoc_ac is None` check and before the empty-contexts check. -/
def acceptorNegotiate (ae : AEConfig) (assoc_rq : Option AssocRQ)
    (assoc_ac : Option ACPrimitive) (negotiated : List PresentationContext) :
    Except PyError (List AcceptorEvent × Bool) :=
  match assoc_rq with
  | none => .ok ([.killed], false)
  | some rq =>
    match acceptorAdmission ae rq with
    | .error e => .error e
    | .ok ((r, s, d) :: _) =>
      .ok ([.rejectSent r s d, .callbackRejected, .killed], false)
    | .ok [] =>
      match assoc_ac with
      | none => .ok ([.callbackAccepted, .killed], false)
      | some _ =>
        match negotiated with
        | [] => .ok ([.callbackAccepted, .abortSent 2 0, .killed], false)
        | _ :: _ => .ok ([.callbackAccepted], true)

/-- A pydicom dataset, reduced to the fields `send_c_store` reads. -/
structure Dataset where
  SOPClassUID : String
  SOPInstanceUID : String
deriving DecidableEq

/-- Encoded dataset bytes (the BytesIO wrapping is elided). -/
abbrev Bytes := List Nat

/-- Models `DIMSEparameters.C_STORE_ServiceParameters`.
Modelled from the spec: the `DIMSEparameters` module is not under `src/`;
per spec 3 the message carries message id, affected uids, priority and
dataset, every field unset (None) until assigned.  `Priorty` renders the
distinct attribute created by the misspelled assignment on line 680. -/
structure CStorePrimitive where
  MessageID : Option Nat
  AffectedSOPClassUID : Option String
  AffectedSOPInstanceUID : Option String
  Priority : Option Nat
  Priorty : Option Nat
  DataSet : Option Bytes
deriving DecidableEq

/-- The transfer-syntax selection loop of `send_c_store` (lines 656-659):
iterate over `acse.context_manager.accepted`; each context whose
`AbstractSyntax` equals the dataset's `SOPClassUID` overwrites the selection
with `context.TransferSyntax[0]` (an `IndexError` when that list is empty). -/
def selectTransferSyntaxFor : List PresentationContext → String →
    Option TransferSyntaxUID → Except PyError (Option TransferSyntaxUID)
  | [], _, ts => .ok ts
  | c :: rest, uid, ts =>
    if uid = c.AbstractSyntaxUID then
      match c.TransferSyntaxes with
      | [] => .error .indexError
      | t :: _ => selectTransferSyntaxFor rest uid (some t)
    else
      selectTransferSyntaxFor rest uid ts

/-- The SOP-class kinds the SCU helpers instantiate. -/
inductive SOPClassKind
  | Verification
  | ModalityWorklistFind
  | PatientRootFind
  | StudyRootFind
  | PatientStudyOnlyFind
  | PatientRootMove
  | StudyRootMove
  | PatientStudyOnlyMove
  | ModalityWorklistGet
  | PatientRootGet
  | StudyRootGet
  | PatientStudyOnlyGet
deriving DecidableEq

/-- The association attributes the SCU helpers read: `is_established`,
`acse.context_manager.accepted`, `scu_supported_sop` (triples of context id,
SOP class and selected transfer syntax), `acse.MaxPDULength` and
`dimse_timeout`. -/
structure Assoc where
  is_established : Bool
  accepted : List PresentationContext
  scu_supported_sop : List (Nat × SOPClassKind × TransferSyntaxUID)
  maxPduLength : Nat
  dimse_timeout : Nat
deriving DecidableEq

/-- The `found_match` loop shared by the SCU helpers (for example lines
523-530): scan `scu_supported_sop` for entries whose SOP class equals the
selected class; no break, so the last matching entry wins. -/
def findScuSop (l : List (Nat × SOPClassKind × TransferSyntaxUID))
    (k : SOPClassKind) : Option (Nat × SOPClassKind × TransferSyntaxUID) :=
  l.foldl (fun acc e => if e.2.1 = k then some e else acc) none

/-- The attributes bound onto the SOP-class instance before its `SCU` entry
point is invoked by a helper. -/
structure ScuBinding where
  pcid : Nat
  kind : SOPClassKind
  transferSyntaxSel : TransferSyntaxUID
  maxPduLength : Nat
deriving DecidableEq

/-- A C-xxxx status surfaced by a helper: the `CannotUnderstand` constant of
`StorageServiceClass`, or a status decoded from a response code
(`Code2Status`, external to `src/`). -/
inductive Status
  | CannotUnderstand
  | Code (value : Nat)
deriving DecidableEq

/-- `Association.send_c_echo` (lines 506-544).  The body of
`VerificationSOPClass.SCU` lives in `pynetdicom.SOPclass` (outside `src/`)
and is the parameter `scu`, returning its status and the DIMSE sends it
performs.  The second component of the result is the DIMSE traffic emitted
by the call. -/
def send_c_echo (a : Assoc) (scu : ScuBinding → Nat → Status × List Nat)
    (msg_id : Nat) : Except PyError Status × List Nat :=
  if a.is_established then
    match findScuSop a.scu_supported_sop SOPClassKind.Verification with
    | some e =>
      let r := scu ⟨e.1, e.2.1, e.2.2, a.maxPduLength⟩ msg_id
      (.ok r.1, r.2)
    | none =>
      (.error (.valueError "VerificationSOPClass is not listed as one of the supported SOP Classes"), [])
  else
    (.error (.runtimeError "The association with a peer SCP must be established before sending a C-ECHO request"), [])

/-- `Association.send_c_store` (lines 546-709).  `encode` models
pydicom/pynetdicom dataset encoding (an external collaborator per spec 1),
returning `none` on failure exactly as the source's `encode` returns None.
`rsp` models the Status value of the C-STORE response obtained from
`dimse.Receive` (`none` = timeout), decoded through `Code2Status` (outside
`src/`, rendered `Status.Code`).  The second component of the result is the
list of primitives passed to `dimse.Send`. -/
def send_c_store (a : Assoc)
    (encode : Dataset → Bool → Bool → Option Bytes)
    (dataset : Dataset) (msg_id : Nat) (priority : Nat) (rsp : Option Nat) :
    Except PyError (Option Status) × List CStorePrimitive :=
  if a.is_established then
    match selectTransferSyntaxFor a.accepted dataset.SOPClassUID none with
    | .error e => (.error e, [])
    | .ok none => (.ok (some Status.CannotUnderstand), [])
    | .ok (some sel) =>
      let primitive : CStorePrimitive :=
        { MessageID := some msg_id
        , AffectedSOPClassUID := some dataset.SOPClassUID
        , AffectedSOPInstanceUID := some dataset.SOPInstanceUID
        , Priority := none
        , Priorty := none
        , DataSet := none }
      let primitive :=
        if priority = 0 ∨ priority = 1 ∨ priority = 2 then
          { primitive with Priority := some priority }
        else
          { primitive with Priorty := some 0 }
      match encode dataset sel.is_implicit_VR sel.is_little_endian with
      | some bs =>
        let primitive := { primitive with DataSet := some bs }
        (.ok (rsp.map Status.Code), [primitive])
      | none => (.ok (some Status.CannotUnderstand), [])
  else
    (.error (.runtimeError "The association with a peer SCP must be established before sending a C-STORE request"), [])

/-- `Association.send_c_find` (lines 711-779): query-model dispatch, the
`found_match` loop, then `sop_class.SCU(dataset, msg_id, priority)` (the
parameter `scu`, external to `src/`, returning its result and DIMSE sends). -/
def send_c_find {α : Type} (a : Assoc)
    (scu : ScuBinding → Dataset → Nat → Nat → α × List Nat)
    (dataset : Dataset) (msg_id : Nat) (priority : Nat)
    (query_model : String) : Except PyError α × List Nat :=
  if a.is_established then
    let kindOpt : Option SOPClassKind :=
      if query_model = "W" then some SOPClassKind.ModalityWorklistFind
      else if query_model = "P" then some SOPClassKind.PatientRootFind
      else if query_model = "S" then some SOPClassKind.StudyRootFind
      else if query_model = "O" then some SOPClassKind.PatientStudyOnlyFind
      else none
    match kindOpt with
    | none => (.error (.valueError "send_c_find query_model must be one of W P S O"), [])
    | some k =>
      match findScuSop a.scu_supported_sop k with
      | some e =>
        let r := scu ⟨e.1, e.2.1, e.2.2, a.maxPduLength⟩ dataset msg_id priority
        (.ok r.1, r.2)
      | none => (.error (.valueError "not listed as one of the supported SOP Classes"), [])
  else
    (.error (.runtimeError "The association with a peer SCP must be established before sending a C-FIND request"), [])

/-- `Association.send_c_move` (lines 781-816): like `send_c_find` with the
move destination AET and the move query models P, S, O. -/
def send_c_move {α : Type} (a : Assoc)
    (scu : ScuBinding → Dataset → String → Nat → Nat → α × List Nat)
    (dataset : Dataset) (move_aet : String) (msg_id : Nat) (priority : Nat)
    (query_model : String) : Except PyError α × List Nat :=
  if a.is_established then
    let kindOpt : Option SOPClassKind :=
      if query_model = "P" then some SOPClassKind.PatientRootMove
      else if query_model = "S" then some SOPClassKind.StudyRootMove
      else if query_model = "O" then some SOPClassKind.PatientStudyOnlyMove
      else none
    match kindOpt with
    | none => (.error (.valueError "send_c_get query_model must be one of P S O"), [])
    | some k =>
      match findScuSop a.scu_supported_sop k with
      | some e =>
        let r := scu ⟨e.1, e.2.1, e.2.2, a.maxPduLength⟩ dataset move_aet msg_id priority
        (.ok r.1, r.2)
      | none => (.error (.valueError "not listed as one of the supported SOP Classes"), [])
  else
    (.error (.runtimeError "The association with a peer SCP must be established before sending a C-MOVE request"), [])

/-- `Association.send_c_get` (lines 818-854).  Note the source's
not-established message on line 854 says C-MOVE (copied from `send_c_move`);
kept verbatim. -/
def send_c_get {α : Type} (a : Assoc)
    (scu : ScuBinding → Dataset → Nat → Nat → α × List Nat)
    (dataset : Dataset) (msg_id : Nat) (priority : Nat)
    (query_model : String) : Except PyError α × List Nat :=
  if a.is_established then
    let kindOpt : Option SOPClassKind :=
      if query_model = "W" then some SOPClassKind.ModalityWorklistGet
      else if query_model = "P" then some SOPClassKind.PatientRootGet
      else if query_model = "S" then some SOPClassKind.StudyRootGet
      else if query_model = "O" then some SOPClassKind.PatientStudyOnlyGet
      else none
    match kindOpt with
    | none => (.error (.valueError "send_c_get query_model must be one of W P S O"), [])
    | some k =>
      match findScuSop a.scu_supported_sop k with
      | some e =>
        let r := scu ⟨e.1, e.2.1, e.2.2, a.maxPduLength⟩ dataset msg_id priority
        (.ok r.1, r.2)
      | none => (.error (.valueError "not listed as one of the supported SOP Classes"), [])
  else
    (.error (.runtimeError "The association with a peer SCP must be established before sending a C-MOVE request"), [])

/-- A wire primitive issued through the ACSE by the shutdown methods. -/
inductive WirePrimitive
  | releaseRQ
  | abortRQ (source reason : Nat)
deriving DecidableEq

/-- A callback fired on the owning AE. -/
inductive CallbackFired
  | accepted
  | rejected
  | released
  | aborted
deriving DecidableEq

/-- The observable state of a running association, as acted on by `kill`,
`release` and `abort`: the kill flag, the established flag, whether the DUL
confirmed shutdown, the wire primitives issued and the callbacks fired. -/
structure LiveAssoc where
  killFlag : Bool
  is_established : Bool
  dulStopped : Bool
  wire : List WirePrimitive
  callbacks : List CallbackFired
deriving DecidableEq

/-- Modelled from the spec: `acse.Release()` (the ACSE provider is
`pynetdicom.ACSEprovider`, not under `src/`) issues an A-RELEASE-RQ
primitive and awaits the reply (spec 4.B). -/
def acseRelease (s : LiveAssoc) : LiveAssoc :=
  { s with wire := s.wire ++ [WirePrimitive.releaseRQ] }

/-- Modelled from the spec: `acse.Abort(source, reason)` issues an A-ABORT
primitive with the given source and reason (spec 4.B). -/
def acseAbort (source reason : Nat) (s : LiveAssoc) : LiveAssoc :=
  { s with wire := s.wire ++ [WirePrimitive.abortRQ source reason] }

/-- `Association.kill` (lines 185-193): set the kill flag, clear
`is_established`, poll `dul.Stop()` until it confirms shutdown. -/
def Association.kill (s : LiveAssoc) : LiveAssoc :=
  { s with killFlag := true, is_established := false, dulStopped := true }

/-- `Association.release` (lines 195-201): `acse.Release()` then `kill()`.
Fires no callback itself. -/
def Association.release (s : LiveAssoc) : LiveAssoc :=
  Association.kill (acseRelease s)

/-- `Association.abort` (lines 203-214): `acse.Abort(0x00, 0x00)` then
`kill()`.  Fires no callback itself. -/
def Association.abort (s : LiveAssoc) : LiveAssoc :=
  Association.kill (acseAbort 0 0 s)

/-- `Association.abort` is declared `def abort(self)` (line 203): zero
parameters besides `self`. -/
def Association.abortParamCount : Nat := 0

/-- The deprecated wrapper `Abort(self, reason)` (lines 1023-1024) forwards
`reason` to `self.abort(...)`.  Python checks the call's argument count
against the callee's parameter count before running the body, raising
`TypeError` on a mismatch; here one argument is passed to a method with
zero parameters. -/
def Association.Abort (reason : Nat) (s : LiveAssoc) : Except PyError LiveAssoc :=
  if Association.abortParamCount = 1 then .ok (Association.abort s)
  else .error (.typeError "abort takes 1 positional argument but 2 were given")

/- Concrete fixtures used by the theorems below. -/

/-- The Implicit VR Little Endian transfer syntax. -/
def tsImplicit : TransferSyntaxUID := ⟨"1.2.840.10008.1.2", true, true⟩

/-- An accepted Verification presentation context id 1. -/
def ctxVerif : PresentationContext := ⟨1, "1.2.840.10008.1.1", [tsImplicit]⟩

/-- An accepted CT Image Storage presentation context id 3. -/
def ctxCT : PresentationContext := ⟨3, "1.2.840.10008.5.1.4.1.1.2", [tsImplicit]⟩

/-- A CT dataset. -/
def dsCT : Dataset := ⟨"1.2.840.10008.5.1.4.1.1.2", "1.2.3.4"⟩

/-- A received verification message. -/
def msgVerif : DIMSEMessage := ⟨"1.2.840.10008.1.1"⟩

/-- An established association whose only accepted context is Verification. -/
def assocVerifOnly : Assoc := ⟨true, [ctxVerif], [(1, SOPClassKind.Verification, tsImplicit)], 16382, 0⟩

/-- An established association whose only accepted context is CT storage. -/
def assocCT : Assoc := ⟨true, [ctxCT], [], 16382, 0⟩

/-- A not-established association. -/
def assocDown : Assoc := ⟨false, [], [], 16382, 0⟩

/-- An encoder that always fails (returns None). -/
def encodeNone : Dataset → Bool → Bool → Option Bytes := fun _ _ _ => none

/-- An encoder that always succeeds. -/
def encodeOk : Dataset → Bool → Bool → Option Bytes := fun _ _ _ => some [1, 2, 3]

/-- A trivial C-ECHO SCU body. -/
def echoScu0 : ScuBinding → Nat → Status × List Nat := fun _ _ => (Status.Code 0, [])

/-- A trivial C-FIND or C-GET SCU body. -/
def findScu0 : ScuBinding → Dataset → Nat → Nat → Nat × List Nat := fun _ _ _ _ => (0, [])

/-- A trivial C-MOVE SCU body. -/
def moveScu0 : ScuBinding → Dataset → String → Nat → Nat → Nat × List Nat := fun _ _ _ _ _ => (0, [])

/-- An AE requiring called AET GOOD, and a request calling it BAD. -/
def aeReqCalled : AEConfig := ⟨"", "GOOD", [], 10⟩

/-- The A-ASSOCIATE-RQ whose called AET is BAD. -/
def rqBadCalled : AssocRQ := ⟨"ANY", "BAD"⟩

/-- An AE with one active association and a maximum of one. -/
def aeAtLimit : AEConfig := ⟨"", "", [7], 1⟩

/-- An unrestricted AE configuration. -/
def aeOpen : AEConfig := ⟨"", "", [], 5⟩

/-- A plain A-ASSOCIATE-RQ. -/
def rqPlain : AssocRQ := ⟨"CALLING", "CALLED"⟩

/-- A live established association with an empty trace. -/
def liveEst : LiveAssoc := ⟨false, true, false, [], []⟩

/-- The C-STORE primitive produced by the invalid-priority run of
`C8_priority_not_coerced`. -/
def primPriorty : CStorePrimitive :=
  { MessageID := some 1
  , AffectedSOPClassUID := some "1.2.840.10008.5.1.4.1.1.2"
  , AffectedSOPInstanceUID := some "1.2.3.4"
  , Priority := none
  , Priorty := some 0
  , DataSet := some [1, 2, 3] }

/- Helper lemmas. -/

/-- Characterisation of the acceptor match loop: when every context carries a
non-empty transfer-syntax list the loop returns normally, and the
`matching_context` flag (the binding being set) holds exactly when the
accumulator was already set or some context id equals `mid`. -/
theorem scpMatchContext_ok (l : List PresentationContext) (mid : Nat)
    (hts : ∀ c ∈ l, c.TransferSyntaxes ≠ []) (b : Option ScpBinding) :
    ∃ r, scpMatchContext l mid b = .ok r ∧
      (r.isSome = true ↔ b.isSome = true ∨ ∃ c ∈ l, c.ID = mid) := by
  induction l generalizing b with
  | nil =>
    refine ⟨b, rfl, ?_⟩
    simp
  | cons c rest ih =>
    have hc : c.TransferSyntaxes ≠ [] := hts c (List.mem_cons_self c rest)
    have hts2 : ∀ x ∈ rest, x.TransferSyntaxes ≠ [] :=
      fun x hx => hts x (List.mem_cons_of_mem c hx)
    by_cases h : c.ID = mid
    · cases hcs : c.TransferSyntaxes with
      | nil => exact absurd hcs hc
      | cons t ts =>
        obtain ⟨r, hr, hiff⟩ := ih hts2 (some ⟨c.ID, c.AbstractSyntaxUID, t, c⟩)
        refine ⟨r, ?_, ?_⟩
        · simp only [scpMatchContext, if_pos h, hcs]
          exact hr
        · constructor
          · intro _
            exact Or.inr ⟨c, List.mem_cons_self c rest, h⟩
          · intro _
            exact hiff.mpr (Or.inl rfl)
    · obtain ⟨r, hr, hiff⟩ := ih hts2 b
      refine ⟨r, ?_, ?_⟩
      · simp only [scpMatchContext, if_neg h]
        exact hr
      · rw [hiff]
        constructor
        · rintro (hb | ⟨x, hx, hid⟩)
          · exact Or.inl hb
          · exact Or.inr ⟨x, List.mem_cons_of_mem c hx, hid⟩
        · rintro (hb | ⟨x, hx, hid⟩)
          · exact Or.inl hb
          · rcases List.mem_cons.mp hx with hx1 | hx2
            · exact absurd (hx1 ▸ hid) h
            · exact Or.inr ⟨x, hx2, hid⟩

/-- When no context's abstract syntax matches the uid, the selection loop of
`send_c_store` leaves the accumulator untouched and raises nothing. -/
theorem selectTransferSyntaxFor_no_match (l : List PresentationContext)
    (uid : String) (h : ∀ c ∈ l, c.AbstractSyntaxUID ≠ uid)
    (ts : Option TransferSyntaxUID) :
    selectTransferSyntaxFor l uid ts = .ok ts := by
  induction l generalizing ts with
  | nil => rfl
  | cons c rest ih =>
    have hc : ¬ uid = c.AbstractSyntaxUID :=
      fun he => h c (List.mem_cons_self c rest) he.symm
    simp only [selectTransferSyntaxFor, if_neg hc]
    exact ih (fun x hx => h x (List.mem_cons_of_mem c hx)) ts

/- Claim theorems. -/

/-- C1 counterexample: a message whose presentation-context id (3) matches no
accepted context (only id 1 is accepted) is not dispatched, but contrary to
the claim no log record is emitted on this path: the drop is silent. -/
theorem C1_counterexample_silent_drop :
    scpHandleMessage [ctxVerif] (some (msgVerif, 3)) = .ok (none, []) := rfl

/-- C1 (amended): in the acceptor steady-state loop a received DIMSE message
is dispatched to a service-class SCP handler exactly when some accepted
presentation context's id equals the message's presentation-context id; a
message whose pc id matches no accepted context is dropped silently (the
source logs nothing on this path) and never dispatched.  The hypothesis
reflects the data-model invariant that accepted contexts carry a non-empty
transfer-syntax list. -/
theorem C1_route_by_context_id (accepted : List PresentationContext)
    (msg : DIMSEMessage) (mid : Nat)
    (hts : ∀ c ∈ accepted, c.TransferSyntaxes ≠ []) :
    ((∃ d, scpHandleMessage accepted (some (msg, mid)) = .ok (some d, [])) ↔
      ∃ c ∈ accepted, c.ID = mid) ∧
    ((∀ c ∈ accepted, c.ID ≠ mid) →
      scpHandleMessage accepted (some (msg, mid)) = .ok (none, [])) := by
  obtain ⟨r, hr, hiff⟩ := scpMatchContext_ok accepted mid hts none
  cases r with
  | none =>
    have hno : ¬ ∃ c ∈ accepted, c.ID = mid := by
      intro hex
      have hfalse : (none : Option ScpBinding).isSome = true :=
        hiff.mpr (Or.inr hex)
      simp at hfalse
    have hh : scpHandleMessage accepted (some (msg, mid)) = .ok (none, []) := by
      simp only [scpHandleMessage]
      rw [hr]
    constructor
    · constructor
      · rintro ⟨d, hd⟩
        rw [hh] at hd
        simp at hd
      · intro hex
        exact absurd hex hno
    · intro _
      exact hh
  | some b =>
    have hex : ∃ c ∈ accepted, c.ID = mid := by
      rcases hiff.mp rfl with hb | hex
      · simp at hb
      · exact hex
    have hh : scpHandleMessage accepted (some (msg, mid)) = .ok (some ⟨b, msg⟩, []) := by
      simp only [scpHandleMessage]
      rw [hr]
    constructor
    · constructor
      · intro _
        exact hex
      · intro _
        exact ⟨⟨b, msg⟩, hh⟩
    · intro hall
      obtain ⟨c, hcmem, hcid⟩ := hex
      exact absurd hcid (hall c hcmem)

/-- C1 witness: with the accepted Verification context (id 1), a message
tagged with pc id 1 is dispatched and a message tagged with pc id 2 is
dropped. -/
theorem C1_route_witness :
    (∃ d, scpHandleMessage [ctxVerif] (some (msgVerif, 1)) = .ok (some d, [])) ∧
    scpHandleMessage [ctxVerif] (some (msgVerif, 2)) = .ok (none, []) := by
  constructor
  · exact (C1_route_by_context_id [ctxVerif] msgVerif 1 (by decide)).1.mpr
      ⟨ctxVerif, List.mem_cons_self ctxVerif [], rfl⟩
  · exact (C1_route_by_context_id [ctxVerif] msgVerif 2 (by decide)).2 (by decide)

/-- C2: constructing an `Association` with both `client_socket` and `peer_ae`
equal to None, or with both supplied, fails with `ValueError` (so the result
carries no state and `start()` on line 183 is never reached); with exactly
one supplied, construction succeeds with the corresponding mode and
`started = true`. -/
theorem C2_init_exactly_one (s : Socket) (p : PeerAE) (ta dt mp : Nat) :
    Association.init none none ta dt mp =
      .error (.valueError "Association must be initialised with either the client_socket or peer_ae parameters") ∧
    Association.init (some s) (some p) ta dt mp =
      .error (.valueError "Association must be initialised with either client_socket or peer_ae parameter not both") ∧
    Association.init (some s) none ta dt mp =
      .ok ⟨Mode.Acceptor, some s, none, false, false, false, dt, ta, mp, false, true⟩ ∧
    Association.init none (some p) ta dt mp =
      .ok ⟨Mode.Requestor, none, some p, false, false, false, dt, ta, mp, false, true⟩ := by
  refine ⟨?_, ?_, ?_, ?_⟩ <;> simp [Association.init]

/-- C3: on an established association, `send_c_store` returns
`CannotUnderstand` and passes nothing to `dimse.Send` when either no accepted
presentation context's abstract syntax equals the dataset's SOPClassUID, or
the dataset fails to encode under the selected transfer syntax. -/
theorem C3_store_cannot_understand (a : Assoc)
    (encode : Dataset → Bool → Bool → Option Bytes)
    (dataset : Dataset) (msg_id priority : Nat) (rsp : Option Nat)
    (hest : a.is_established = true) :
    ((∀ c ∈ a.accepted, c.AbstractSyntaxUID ≠ dataset.SOPClassUID) →
      send_c_store a encode dataset msg_id priority rsp =
        (.ok (some Status.CannotUnderstand), [])) ∧
    (∀ sel, selectTransferSyntaxFor a.accepted dataset.SOPClassUID none = .ok (some sel) →
      encode dataset sel.is_implicit_VR sel.is_little_endian = none →
      send_c_store a encode dataset msg_id priority rsp =
        (.ok (some Status.CannotUnderstand), [])) := by
  constructor
  · intro hnone
    have hsel := selectTransferSyntaxFor_no_match a.accepted dataset.SOPClassUID hnone none
    simp [send_c_store, hest, hsel]
  · intro sel hsel henc
    simp [send_c_store, hest, hsel, henc]

/-- C3 witness: an established association accepting only Verification makes
a CT store return `CannotUnderstand` with no DIMSE send; an association
accepting CT but with a failing encoder does the same. -/
theorem C3_store_witness :
    send_c_store assocVerifOnly encodeNone dsCT 1 2 none =
      (.ok (some Status.CannotUnderstand), []) ∧
    send_c_store assocCT encodeNone dsCT 1 2 none =
      (.ok (some Status.CannotUnderstand), []) := by
  constructor
  · exact (C3_store_cannot_understand assocVerifOnly encodeNone dsCT 1 2 none rfl).1
      (by decide)
  · exact (C3_store_cannot_understand assocCT encodeNone dsCT 1 2 none rfl).2
      tsImplicit rfl rfl

/-- C4: with `require_called_aet` configured non-empty (GOOD) and a request
whose called AE title differs (BAD), the acceptor run does not send the
claimed A-ASSOCIATE-RJ (1, 1, 7): the comparison on line 258 reads
`self.AE`, an attribute that never exists, so the run raises
`AttributeError` instead. -/
theorem C4_called_aet_attribute_error :
    acceptorNegotiate aeReqCalled (some rqBadCalled) (some ACPrimitive.mk) [ctxVerif] =
      .error (.attributeError "Association object has no attribute AE") := rfl

/-- C5 counterexample: with one active association and a configured maximum
of one (count = maximum, so count is greater than or equal to the maximum),
the code issues no (2, 3, 2) rejection at all: the association proceeds and
is established, because line 264 tests with a strict greater-than. -/
theorem C5_counterexample_at_limit :
    acceptorNegotiate aeAtLimit (some rqPlain) (some ACPrimitive.mk) [ctxVerif] =
      .ok ([AcceptorEvent.callbackAccepted], true) ∧
    aeAtLimit.maximum_associations ≤ aeAtLimit.active_associations.length ∧
    AcceptorEvent.rejectSent 2 3 2 ∉ [AcceptorEvent.callbackAccepted] := by
  refine ⟨rfl, ?_, ?_⟩ <;> decide

/-- C5 (amended): on the acceptor side, for a request passing the AE-title
checks, the (2, 3, 2) local-limit rejection is issued exactly when the count
of active associations is strictly greater than the configured maximum. -/
theorem C5_local_limit_strictly_greater (ae : AEConfig) (rq : AssocRQ)
    (acOpt : Option ACPrimitive) (negotiated : List PresentationContext)
    (hcalling : ae.require_calling_aet = "" ∨ ae.require_calling_aet = rq.CallingAETitle)
    (hcalled : ae.require_called_aet = "") :
    ∃ evs est, acceptorNegotiate ae (some rq) acOpt negotiated = .ok (evs, est) ∧
      (AcceptorEvent.rejectSent 2 3 2 ∈ evs ↔
        ae.active_associations.length > ae.maximum_associations) := by
  have hadm : acceptorAdmission ae rq =
      .ok (if ae.active_associations.length > ae.maximum_associations
           then [(2, 3, 2)] else []) := by
    rcases hcalling with h | h <;> simp [acceptorAdmission, hcalled, h]
  by_cases hmax : ae.active_associations.length > ae.maximum_associations
  · refine ⟨[AcceptorEvent.rejectSent 2 3 2, AcceptorEvent.callbackRejected,
      AcceptorEvent.killed], false, ?_, ?_⟩
    · simp [acceptorNegotiate, hadm, hmax]
    · simp [hmax]
  · have hadm2 : acceptorAdmission ae rq = .ok [] := by
      rw [hadm, if_neg hmax]
    cases acOpt with
    | none =>
      refine ⟨[AcceptorEvent.callbackAccepted, AcceptorEvent.killed], false, ?_, ?_⟩
      · simp [acceptorNegotiate, hadm2]
      · simp [hmax]
    | some ac =>
      cases negotiated with
      | nil =>
        refine ⟨[AcceptorEvent.callbackAccepted, AcceptorEvent.abortSent 2 0,
          AcceptorEvent.killed], false, ?_, ?_⟩
        · simp [acceptorNegotiate, hadm2]
        · simp [hmax]
      | cons c cs =>
        refine ⟨[AcceptorEvent.callbackAccepted], true, ?_, ?_⟩
        · simp [acceptorNegotiate, hadm2]
        · simp [hmax]

/-- C5 witness: with two active associations and a maximum of one, the
local-limit rejection (2, 3, 2) is issued. -/
theorem C5_local_limit_witness :
    ∃ evs est, acceptorNegotiate ⟨"", "", [1, 2], 1⟩ (some rqPlain)
        (some ACPrimitive.mk) [] = .ok (evs, est) ∧
      (AcceptorEvent.rejectSent 2 3 2 ∈ evs ↔
        (⟨"", "", [1, 2], 1⟩ : AEConfig).active_associations.length >
          (⟨"", "", [1, 2], 1⟩ : AEConfig).maximum_associations) :=
  C5_local_limit_strictly_greater ⟨"", "", [1, 2], 1⟩ rqPlain
    (some ACPrimitive.mk) [] (Or.inl rfl) rfl

/-- C6 counterexample: on a run where the negotiator accepts zero contexts
the supervisor does issue A-ABORT(2, 0) and never establishes, but the
accepted callback IS invoked on that run (it fires right after
`acse.Accept`, before the zero-context check), contradicting the claim that
it is never invoked on such a run. -/
theorem C6_counterexample_callback_fired :
    acceptorNegotiate aeOpen (some rqPlain) (some ACPrimitive.mk) [] =
      .ok ([AcceptorEvent.callbackAccepted, AcceptorEvent.abortSent 2 0,
        AcceptorEvent.killed], false) ∧
    AcceptorEvent.callbackAccepted ∈
      [AcceptorEvent.callbackAccepted, AcceptorEvent.abortSent 2 0,
        AcceptorEvent.killed] := by
  refine ⟨rfl, ?_⟩
  decide

/-- C6 (amended): when the negotiator accepts zero presentation contexts and
admission passes, the supervisor issues A-ABORT(source = 2, reason = 0) and
never reaches Established; however the accepted callback is invoked on such
a run as well, since the source fires it immediately after `acse.Accept`,
before the zero-context check. -/
theorem C6_zero_contexts_abort (ae : AEConfig) (rq : AssocRQ) (ac : ACPrimitive)
    (hadm : acceptorAdmission ae rq = .ok []) :
    acceptorNegotiate ae (some rq) (some ac) [] =
      .ok ([AcceptorEvent.callbackAccepted, AcceptorEvent.abortSent 2 0,
        AcceptorEvent.killed], false) := by
  simp [acceptorNegotiate, hadm]

/-- C6 witness: the amended behaviour at a concrete unrestricted AE. -/
theorem C6_zero_contexts_abort_witness :
    acceptorNegotiate aeOpen (some rqPlain) (some ACPrimitive.mk) [] =
      .ok ([AcceptorEvent.callbackAccepted, AcceptorEvent.abortSent 2 0,
        AcceptorEvent.killed], false) :=
  C6_zero_contexts_abort aeOpen rqPlain ACPrimitive.mk rfl

/-- C7: each SCU helper invoked while the association is not established
fails with the not-established `RuntimeError` and emits no DIMSE traffic. -/
theorem C7_helpers_require_established (a : Assoc) {α β γ : Type}
    (hest : a.is_established = false)
    (echoScu : ScuBinding → Nat → Status × List Nat)
    (encode : Dataset → Bool → Bool → Option Bytes)
    (findScuBody : ScuBinding → Dataset → Nat → Nat → α × List Nat)
    (moveScuBody : ScuBinding → Dataset → String → Nat → Nat → β × List Nat)
    (getScuBody : ScuBinding → Dataset → Nat → Nat → γ × List Nat)
    (dataset : Dataset) (msg_id priority : Nat) (query_model move_aet : String)
    (rsp : Option Nat) :
    send_c_echo a echoScu msg_id =
      (.error (.runtimeError "The association with a peer SCP must be established before sending a C-ECHO request"), []) ∧
    send_c_store a encode dataset msg_id priority rsp =
      (.error (.runtimeError "The association with a peer SCP must be established before sending a C-STORE request"), []) ∧
    send_c_find a findScuBody dataset msg_id priority query_model =
      (.error (.runtimeError "The association with a peer SCP must be established before sending a C-FIND request"), []) ∧
    send_c_move a moveScuBody dataset move_aet msg_id priority query_model =
      (.error (.runtimeError "The association with a peer SCP must be established before sending a C-MOVE request"), []) ∧
    send_c_get a getScuBody dataset msg_id priority query_model =
      (.error (.runtimeError "The association with a peer SCP must be established before sending a C-MOVE request"), []) := by
  refine ⟨?_, ?_, ?_, ?_, ?_⟩ <;>
    simp [send_c_echo, send_c_store, send_c_find, send_c_move, send_c_get, hest]

/-- C7 witness: all five helpers refuse on a concrete not-established
association. -/
theorem C7_helpers_witness :
    send_c_echo assocDown echoScu0 1 =
      (.error (.runtimeError "The association with a peer SCP must be established before sending a C-ECHO request"), []) ∧
    send_c_store assocDown encodeNone dsCT 1 2 none =
      (.error (.runtimeError "The association with a peer SCP must be established before sending a C-STORE request"), []) ∧
    send_c_find assocDown findScu0 dsCT 1 2 "P" =
      (.error (.runtimeError "The association with a peer SCP must be established before sending a C-FIND request"), []) ∧
    send_c_move assocDown moveScu0 dsCT "MOVEAET" 1 2 "P" =
      (.error (.runtimeError "The association with a peer SCP must be established before sending a C-MOVE request"), []) ∧
    send_c_get assocDown findScu0 dsCT 1 2 "P" =
      (.error (.runtimeError "The association with a peer SCP must be established before sending a C-MOVE request"), []) :=
  C7_helpers_require_established assocDown rfl echoScu0 encodeNone findScu0
    moveScu0 findScu0 dsCT 1 2 "P" "MOVEAET" none

/-- C8: with priority 3 (outside {0, 1, 2}) the C-STORE primitive that is
sent does NOT carry priority 0: line 680 assigns the misspelled attribute
`Priorty`, leaving the primitive's `Priority` field unset (None). -/
theorem C8_priority_not_coerced :
    send_c_store assocCT encodeOk dsCT 1 3 (some 0) =
      (.ok (some (Status.Code 0)), [primPriorty]) ∧
    primPriorty.Priority = none ∧ primPriorty.Priorty = some 0 := by
  refine ⟨rfl, rfl, rfl⟩

/-- C9 counterexample: invoking `release()` (resp. `abort()`) twice issues
the A-RELEASE-RQ (resp. A-ABORT) wire primitive twice, so the observable
effect differs from a single invocation. -/
theorem C9_counterexample_double_release :
    (Association.release (Association.release liveEst)).wire =
      [WirePrimitive.releaseRQ, WirePrimitive.releaseRQ] ∧
    (Association.release liveEst).wire = [WirePrimitive.releaseRQ] ∧
    Association.release (Association.release liveEst) ≠ Association.release liveEst ∧
    (Association.abort (Association.abort liveEst)).wire =
      [WirePrimitive.abortRQ 0 0, WirePrimitive.abortRQ 0 0] ∧
    Association.abort (Association.abort liveEst) ≠ Association.abort liveEst := by
  refine ⟨rfl, rfl, ?_, rfl, ?_⟩ <;> decide

/-- C9 (amended): `kill()` is idempotent, and a second `release()` (resp.
`abort()`) reaches the same state flags and fires no callbacks, but each
invocation re-issues its wire primitive, so the wire trace of two
invocations extends that of one. -/
theorem C9_amended_idempotent_except_wire (s : LiveAssoc) :
    Association.kill (Association.kill s) = Association.kill s ∧
    (Association.release (Association.release s)).killFlag = (Association.release s).killFlag ∧
    (Association.release (Association.release s)).is_established = (Association.release s).is_established ∧
    (Association.release (Association.release s)).dulStopped = (Association.release s).dulStopped ∧
    (Association.release (Association.release s)).callbacks = (Association.release s).callbacks ∧
    (Association.release (Association.release s)).wire =
      (Association.release s).wire ++ [WirePrimitive.releaseRQ] ∧
    (Association.abort (Association.abort s)).killFlag = (Association.abort s).killFlag ∧
    (Association.abort (Association.abort s)).is_established = (Association.abort s).is_established ∧
    (Association.abort (Association.abort s)).dulStopped = (Association.abort s).dulStopped ∧
    (Association.abort (Association.abort s)).callbacks = (Association.abort s).callbacks ∧
    (Association.abort (Association.abort s)).wire =
      (Association.abort s).wire ++ [WirePrimitive.abortRQ 0 0] :=
  ⟨rfl, rfl, rfl, rfl, rfl, rfl, rfl, rfl, rfl, rfl, rfl⟩

/-- C10: for every reason value, the deprecated wrapper `Abort(reason)`
fails with `TypeError` (it forwards the argument to `abort()`, which takes
none), before any A-ABORT primitive is issued: no resulting state, and in
particular no extended wire trace, is ever produced. -/
theorem C10_deprecated_abort_type_error (reason : Nat) (s : LiveAssoc) :
    Association.Abort reason s =
      .error (.typeError "abort takes 1 positional argument but 2 were given") ∧
    ∀ t, Association.Abort reason s ≠ .ok t := by
  have h0 : Association.Abort reason s =
      .error (.typeError "abort takes 1 positional argument but 2 were given") := rfl
  refine ⟨h0, fun t h => ?_⟩
  rw [h0] at h
  exact Except.noConfusion h

end Pynetdicom
